import Mathlib

/-
Shallow embedding of src/deepsearch.py (OpenDeepResearcher).

The Python program is sequential and deterministic; its interaction with the
outside world (the llama.cpp model gateway, the DuckDuckGo search provider,
HTTP page fetches, the HTML2Text converter and the json.loads parser) is
modelled by an explicit oracle of response functions.  Python values that flow
through the program (results of json.loads, elements of lists, dict values)
are modelled by the inductive type Json below; Python truthiness, the `in`
operator, `len`, iteration, positional indexing and `str.join` are modelled by
the py* helpers, each of which returns `Except PyErr _` exactly where the
Python operation can raise.
-/

set_option linter.unusedVariables false

namespace DeepSearch

/-- A Python value as produced by `json.loads` (and flowing through the
program): JSON null, booleans, numbers, strings, lists and dicts. -/
inductive Json where
  | null : Json
  | bool : Bool → Json
  | num : Int → Json
  | str : String → Json
  | arr : List Json → Json
  | obj : List (String × Json) → Json
deriving Repr

/-- Python truthiness of a Json value: None, False, 0, "", [] and \x7b\x7d are
falsy, everything else is truthy. -/
def Json.truthy : Json → Bool
  | .null => false
  | .bool b => b
  | .num n => n != 0
  | .str s => s != ""
  | .arr xs => !xs.isEmpty
  | .obj fs => !fs.isEmpty

/-- Python equality of a Json value with a string literal (`v == "..."`):
true exactly when the value is that string. -/
def Json.isStr (j : Json) (s : String) : Bool :=
  match j with
  | .str t => t == s
  | _ => false

/-- An exception escaping a Python operation in the embedded fragment. -/
inductive PyErr where
  | typeError : PyErr
  | keyError : PyErr
deriving Repr, DecidableEq

/-- Python `value.get(key, default)`: defined for dicts (first matching key,
else the default); on any other value, attribute lookup of `get` raises
(AttributeError). -/
def pyDictGet (j : Json) (key : String) (dflt : Json) : Except String Json :=
  match j with
  | .obj fs => .ok (((fs.find? (fun p => p.1 == key)).map Prod.snd).getD dflt)
  | _ => .error "AttributeError"

/-- Does the needle occur at the head of the haystack? -/
def startsWithL : List Char → List Char → Bool
  | [], _ => true
  | _ :: _, [] => false
  | n :: ns, h :: hs => n == h && startsWithL ns hs

/-- Does the needle occur anywhere in the haystack? -/
def occursInL (needle : List Char) : List Char → Bool
  | [] => needle.isEmpty
  | h :: hs => startsWithL needle (h :: hs) || occursInL needle hs

/-- Substring test on strings, modelling Python `needle in hay` for strings:
true when needle occurs in hay (needle is always nonempty at our call sites). -/
def strContains (hay needle : String) : Bool :=
  occursInL needle.toList hay.toList

/-- Python `needle in value` for a string needle: substring test for strings,
element equality for lists, key membership for dicts; raises TypeError on
null/bool/number. -/
def pyInStr (needle : String) (j : Json) : Except PyErr Bool :=
  match j with
  | .str s => .ok (strContains s needle)
  | .arr xs => .ok (xs.any (fun x => x.isStr needle))
  | .obj fs => .ok (fs.any (fun p => p.1 == needle))
  | _ => .error .typeError

/-- Python iteration `for x in value`: list elements, characters of a string
(as one-character strings), keys of a dict; raises TypeError otherwise. -/
def pyElems : Json → Except PyErr (List Json)
  | .arr xs => .ok xs
  | .str s => .ok (s.toList.map (fun c => Json.str (String.mk [c])))
  | .obj fs => .ok (fs.map (fun p => Json.str p.1))
  | _ => .error .typeError

/-- Python `len(value)`: defined for lists, strings and dicts; raises
TypeError otherwise. -/
def pyLen : Json → Except PyErr Nat
  | .arr xs => .ok xs.length
  | .str s => .ok s.length
  | .obj fs => .ok fs.length
  | _ => .error .typeError

/-- Python `"\n".join(xs)`: concatenates string elements with newline
separators; raises TypeError at any non-string element. -/
def pyJoin (xs : List Json) : Except PyErr String :=
  match xs.mapM (fun j => match j with
      | Json.str s => Except.ok s
      | _ => Except.error PyErr.typeError) with
  | .ok ss => .ok (String.intercalate "\n" ss)
  | .error e => .error e

/-- Characters that are not an opening brace (used by the JSON_REGEX scan). -/
def notOpen (c : Char) : Bool := c != '{'

/-- Characters that are not a closing brace (used by the JSON_REGEX scan). -/
def notClose (c : Char) : Bool := c != '}'

/-- The match of Python `re.search(r"\x7b.*\x7d", s, re.DOTALL)` on a
character list: greedy leftmost match, i.e. the segment from the first opening
brace through the last closing brace after it, or none when no such segment
exists.  Computed by dropping the brace-free head, then dropping the
suffix after the last closing brace. -/
def braceSpanL (cs : List Char) : Option (List Char) :=
  let t := cs.dropWhile notOpen
  let u := (t.reverse.dropWhile notClose).reverse
  if u.isEmpty then none else some u

/-- The match of `re.search(JSON_REGEX, response, re.DOTALL)` on a string. -/
def braceSpan (s : String) : Option String :=
  (braceSpanL s.toList).map String.mk

/-- Model of `extract_json(response)` (deepsearch.py lines 31-35): locate the greedy
brace-to-brace match and run it through `json.loads` (modelled by the
`parse` argument; `none` models a raised JSONDecodeError).  Raises when there
is no match or when the matched text does not parse. -/
def extract_json (parse : String → Option Json) (response : String) : Except String Json :=
  match braceSpan response with
  | some json_str =>
    match parse json_str with
    | some j => Except.ok j
    | none => Except.error "json.loads raised JSONDecodeError"
  | none => Except.error ("No JSON object was found in " ++ response)

/-- Shared decision logic of `generate_search_queries_async` (lines 89-99) and
`get_new_search_queries_async` (lines 281-291), given the gateway's reply
(`none` models a call that returned None): start from the empty list; when the
reply is truthy, try `extract_json(response).get("queries", [])`; every raised
exception (no JSON object, invalid JSON, `.get` on a non-dict, or the
isinstance check) is caught, but the assignment to search_queries has already
happened, so a parsed non-list value under "queries" is returned as-is. -/
def parse_query_list (parse : String → Option Json) (response : Option String) : Json :=
  match response with
  | none => Json.arr []
  | some r =>
    if r == "" then Json.arr []
    else
      match extract_json parse r with
      | Except.error _ => Json.arr []
      | Except.ok j =>
        match pyDictGet j "queries" (Json.arr []) with
        | Except.error _ => Json.arr []
        | Except.ok v => v

/-- Model of `generate_search_queries_async` (lines 66-99), reply-to-result logic. -/
def generate_search_queries_async (parse : String → Option Json)
    (response : Option String) : Json :=
  parse_query_list parse response

/-- Model of `is_page_useful_async` (lines 141-181), reply-to-verdict logic: parse the
reply, read the "useful" value; a falsy value raises (caught, "No"); the exact
strings "Yes"/"No" are returned; otherwise Python `"Yes" in usefulness` then
`"No" in usefulness` recover a verdict (a TypeError from `in` is caught,
"No"); in every remaining case the function returns "No". -/
def is_page_useful_async (parse : String → Option Json) (response : Option String) : String :=
  match response with
  | none => "No"
  | some r =>
    if r == "" then "No"
    else
      match extract_json parse r with
      | Except.error _ => "No"
      | Except.ok j =>
        match pyDictGet j "useful" Json.null with
        | Except.error _ => "No"
        | Except.ok usefulness =>
          if !usefulness.truthy then "No"
          else if usefulness.isStr "Yes" then "Yes"
          else if usefulness.isStr "No" then "No"
          else
            match pyInStr "Yes" usefulness with
            | Except.error _ => "No"
            | Except.ok true => "Yes"
            | Except.ok false =>
              match pyInStr "No" usefulness with
              | Except.error _ => "No"
              | Except.ok true => "No"
              | Except.ok false => "No"

/-- Model of `extract_relevant_context_async` (lines 209-221), reply-to-context logic:
parse the reply, read the "relevant" value (any raised exception is caught
after the assignment); return it when truthy, else the empty string. -/
def extract_relevant_context_async (parse : String → Option Json)
    (response : Option String) : Json :=
  let relevant_ctx : Json :=
    match response with
    | none => Json.null
    | some r =>
      if r == "" then Json.null
      else
        match extract_json parse r with
        | Except.error _ => Json.null
        | Except.ok j =>
          match pyDictGet j "relevant" Json.null with
          | Except.error _ => Json.null
          | Except.ok v => v
  if relevant_ctx.truthy then relevant_ctx else Json.str ""

/-- The content of the user message built by `extract_relevant_context_async`
(lines 199-207).  In the source only the first string literal of the implicit
concatenation carries the f prefix, so the continuation lines contribute the
literal placeholder text rather than the values of search_query, page_text
and prompt. -/
def extract_relevant_user_content (user_query search_query page_text : String) : String :=
  "User Query: " ++ user_query ++ "\n" ++
  "Search Query: \x7bsearch_query\x7d\n" ++
  "\nWebpage Content:" ++
  "\n\x7bpage_text\x7d\n" ++
  "\n\x7bprompt\x7d"

/-- The content of the user message built by `get_new_search_queries_async`
(lines 269-277).  Only the first and last string literals of the implicit
concatenation carry the f prefix, so previous_search_queries, context_combined
and prompt appear as literal placeholder text. -/
def get_new_search_queries_user_content (user_query previous_search_queries
    context_combined : String) : String :=
  "User Query: " ++ user_query ++ "\n" ++
  "Previous Search Queries: \x7bprevious_search_queries\x7d\n" ++
  "\nExtracted Relevant Contexts:\n\x7bcontext_combined\x7d\n" ++
  "\n\x7bprompt\x7d\n" ++
  "Return a JSON object that contains a list of queries precisely in the following format: " ++
  "\x7b\"queries\" : [\"query1\", \"query2\", \"query3\"]\x7d"

/-- Model of `get_new_search_queries_async` (lines 253-291): joins the aggregated
contexts (which raises TypeError on a non-string context, before any network
call), then applies the shared query-list decision logic to the reply. -/
def get_new_search_queries_async (parse : String → Option Json)
    (all_contexts : List Json) (response : Option String) : Except PyErr Json :=
  match pyJoin all_contexts with
  | .error e => .error e
  | .ok _ => .ok (parse_query_list parse response)

/-- Model of `generate_final_report_async` (lines 293-311): joins the aggregated
contexts (TypeError on a non-string context), then returns the reply text, or
"No report generated." when the reply is absent or empty. -/
def generate_final_report_async (all_contexts : List Json)
    (response : Option String) : Except PyErr String :=
  match pyJoin all_contexts with
  | .error e => .error e
  | .ok _ =>
    match response with
    | none => Except.ok "No report generated."
    | some report => Except.ok (if report == "" then "No report generated." else report)

/-- The session configuration after defaulting (async_main lines 317-336). -/
structure Config where
  user_query : String
  n_iterations : Nat
  n_queries : Nat
  max_links_per_query : Nat

/-- The upstream responses of one session, one slot per call occurrence: the
gateway reply to the initial query generation; the search provider's links per
(round, query); the fetched body per (round, url) ("" models any failure); the
HTML2Text conversion per page (`none` models a raised exception); the gateway
replies for the usefulness and extraction calls per (round, url) and for the
replanning call per round; the gateway reply for the final report; and the
behaviour of `json.loads`. -/
structure Oracle where
  genReply : Option String
  search : Nat → Json → List String
  fetch : Nat → String → String
  html2text : String → Option String
  usefulReply : Nat → String → Option String
  extractReply : Nat → String → Option String
  replanReply : Nat → Option String
  reportReply : Option String
  parse : String → Option Json

/-- Model of `process_link` (lines 223-251): fetch the page (empty means absent),
convert it to text (an exception means absent), judge usefulness, and when the
verdict is "Yes" extract context, returning it only when truthy. -/
def process_link (o : Oracle) (it : Nat) (link : String)
    (user_query : String) (search_query : Json) : Option Json :=
  let page := o.fetch it link
  if page == "" then none
  else
    match o.html2text page with
    | none => none
    | some page_text =>
      let useful := is_page_useful_async o.parse (o.usefulReply it link)
      if useful == "Yes" then
        let context := extract_relevant_context_async o.parse (o.extractReply it link)
        if context.truthy then some context else none
      else none

/-- Key membership in the insertion-ordered dict model
(`link not in unique_links`, line 362). -/
def keyMem (m : List (String × Json)) (k : String) : Bool :=
  m.any (fun p => p.1 == k)

/-- Lookup in the insertion-ordered dict model (`unique_links[link]`). -/
def alistFind (m : List (String × Json)) (k : String) : Option Json :=
  (m.find? (fun p => p.1 == k)).map Prod.snd

/-- The inner loop of the dedup map construction (lines 361-363): insert each
link of one query's result list unless the key is already present.  Python
dicts preserve insertion order, modelled by appending fresh keys. -/
def addLinks (m : List (String × Json)) (links : List String) (query : Json) :
    List (String × Json) :=
  links.foldl (fun acc link => if keyMem acc link then acc else acc ++ [(link, query)]) m

/-- The dedup map construction of lines 358-363 over (query, result list)
pairs in round order. -/
def buildUniqueLinks (pairs : List (Json × List String)) : List (String × Json) :=
  pairs.foldl (fun m p => addLinks m p.2 p.1) []

/-- The query whose result list first contains the link, in iteration order
(the spec-side description of the first-seen-wins invariant). -/
def firstOriginFor (pairs : List (Json × List String)) (link : String) : Option Json :=
  (pairs.find? (fun p => p.2.contains link)).map Prod.fst

/-- Lines 355-365 of the round body: run the search per query of the current
`new_search_queries` value, then pair each result list with
`new_search_queries[idx]` and build the dedup map.  Positional indexing agrees
with iteration order for lists and strings; indexing a dict by an integer
position raises KeyError at the first index (a nonempty dict reply is the only
way this arises). -/
def roundLinks (o : Oracle) (it : Nat) (nsq : Json) (queries : List Json) :
    Except PyErr (List (String × Json)) :=
  let search_results := queries.map (fun q => o.search it q)
  match nsq with
  | Json.obj _ =>
    if queries.isEmpty then Except.ok [] else Except.error PyErr.keyError
  | _ => Except.ok (buildUniqueLinks (queries.zip search_results))

/-- Lines 368-372 of the round body: process every link of the dedup map in
its insertion order and keep the truthy results
(`[res for res in link_results if res]`). -/
def roundContexts (o : Oracle) (cfg : Config) (it : Nat)
    (unique_links : List (String × Json)) : List Json :=
  let link_results := unique_links.map
    (fun p => process_link o it p.1 cfg.user_query p.2)
  link_results.filterMap (fun res =>
    match res with
    | none => none
    | some j => if j.truthy then some j else none)

/-- How one execution of the loop body terminated the loop, mirroring the
three exits of lines 381-391: the iteration budget, the
"Research complete according to LLM assessment" break (reply equal to ""),
and the "No new search queries generated" break (falsy reply). -/
inductive ExitReason where
  | budget : ExitReason
  | llmComplete : ExitReason
  | noNewQueries : ExitReason
deriving Repr, DecidableEq

/-- The observable record of one executed round: its iteration index, the
round's query values, its dedup map and the contexts it contributed. -/
structure RoundLog where
  it : Nat
  queries : List Json
  links : List (String × Json)
  contexts : List Json
deriving Repr

/-- The observable outcome of the while loop (lines 349-391). -/
structure LoopOut where
  aggregated : List Json
  allQueries : List Json
  rounds : Nat
  trace : List RoundLog
  exitReason : ExitReason
deriving Repr

/-- The research loop (lines 349-391), with the remaining budget
`n_iterations - iteration` as fuel and the 0-based iteration index `it`
keying the oracle.  Each fuel step executes one round: iterate the current
query value, search, dedup, process all links, append the truthy contexts,
then replan; a reply equal to "" or a falsy reply breaks, a truthy reply is
measured (`len`), extended into the history and drives the next round. -/
def researchLoop (o : Oracle) (cfg : Config) :
    Nat → Nat → List Json → List Json → Json → Except PyErr LoopOut
  | 0, _, aggregated, allQ, _ =>
    Except.ok ⟨aggregated, allQ, 0, [], ExitReason.budget⟩
  | fuel + 1, it, aggregated, allQ, nsq =>
    match pyElems nsq with
    | .error e => .error e
    | .ok queries =>
      match roundLinks o it nsq queries with
      | .error e => .error e
      | .ok unique_links =>
        let iteration_contexts := roundContexts o cfg it unique_links
        let aggregated' := aggregated ++ iteration_contexts
        match get_new_search_queries_async o.parse aggregated' (o.replanReply it) with
        | .error e => .error e
        | .ok nsq' =>
          if nsq'.isStr "" then
            Except.ok ⟨aggregated', allQ, 1, [⟨it, queries, unique_links, iteration_contexts⟩],
              ExitReason.llmComplete⟩
          else if nsq'.truthy then
            match pyLen nsq' with
            | .error e => .error e
            | .ok _ =>
              match pyElems nsq' with
              | .error e => .error e
              | .ok newElems =>
                match researchLoop o cfg fuel (it + 1) aggregated' (allQ ++ newElems) nsq' with
                | .error e => .error e
                | .ok out =>
                  Except.ok ⟨out.aggregated, out.allQueries, out.rounds + 1,
                    ⟨it, queries, unique_links, iteration_contexts⟩ :: out.trace, out.exitReason⟩
          else
            Except.ok ⟨aggregated', allQ, 1, [⟨it, queries, unique_links, iteration_contexts⟩],
              ExitReason.noNewQueries⟩

/-- The observable outcome of one session: the printed final report
(none when the session exited before the loop) and the loop outcome
(none when the loop was never entered). -/
structure RunOut where
  report : Option String
  loopOut : Option LoopOut
deriving Repr

/-- Model of `async_main` (lines 317-397) after configuration defaulting: generate the
initial queries, exit with no report when they are falsy, otherwise extend the
history, run the loop and synthesize the final report. -/
def async_main (o : Oracle) (cfg : Config) : Except PyErr RunOut :=
  let new_search_queries := generate_search_queries_async o.parse o.genReply
  if !new_search_queries.truthy then Except.ok ⟨none, none⟩
  else
    match pyElems new_search_queries with
    | .error e => .error e
    | .ok initElems =>
      match researchLoop o cfg cfg.n_iterations 0 [] initElems new_search_queries with
      | .error e => .error e
      | .ok lo =>
        match generate_final_report_async lo.aggregated o.reportReply with
        | .error e => .error e
        | .ok report => Except.ok ⟨some report, some lo⟩

/-! Concrete replies, oracles and configurations used to evaluate the
development on closed inputs. -/

/-- A gateway reply carrying the query list ["q1"]. -/
def sQ1 : String := "\x7b\"queries\": [\"q1\"]\x7d"

/-- A gateway reply whose "queries" value is the empty string. -/
def sQE : String := "\x7b\"queries\": \"\"\x7d"

/-- A gateway reply carrying an ambiguous usefulness verdict. -/
def sUseYes : String := "\x7b\"useful\": \"Yes, definitely\"\x7d"

/-- A gateway reply embedding one JSON object in surrounding prose. -/
def sProse : String := "noise \x7b\"a\": 1\x7d tail"

/-- A concrete fragment of json.loads behaviour: each reply above is mapped to
exactly the value json.loads returns for the embedded object. -/
def parseCX : String → Option Json := fun s =>
  if s == sQ1 then some (Json.obj [("queries", Json.arr [Json.str "q1"])])
  else if s == sQE then some (Json.obj [("queries", Json.str "")])
  else if s == sUseYes then some (Json.obj [("useful", Json.str "Yes, definitely")])
  else if s == "\x7b\"a\": 1\x7d" then some (Json.obj [("a", Json.num 1)])
  else none

/-- An oracle whose replanner always proposes the query list ["q1"]
(exercising the iteration budget). -/
def oBudget : Oracle where
  genReply := some sQ1
  search := fun _ _ => []
  fetch := fun _ _ => ""
  html2text := fun _ => none
  usefulReply := fun _ _ => none
  extractReply := fun _ _ => none
  replanReply := fun _ => some sQ1
  reportReply := none
  parse := parseCX

/-- An oracle whose replanner answers with "queries" mapped to the empty
string (reaching the "Research complete according to LLM assessment" break). -/
def oEmptyStr : Oracle where
  genReply := some sQ1
  search := fun _ _ => []
  fetch := fun _ _ => ""
  html2text := fun _ => none
  usefulReply := fun _ _ => none
  extractReply := fun _ _ => none
  replanReply := fun _ => some sQE
  reportReply := none
  parse := parseCX

/-- An oracle all of whose upstream calls fail. -/
def oFail : Oracle where
  genReply := none
  search := fun _ _ => []
  fetch := fun _ _ => ""
  html2text := fun _ => none
  usefulReply := fun _ _ => none
  extractReply := fun _ _ => none
  replanReply := fun _ => none
  reportReply := none
  parse := fun _ => none

/-- A two-round configuration. -/
def cfgTwo : Config := ⟨"topic", 2, 2, 5⟩

/-- A three-round configuration. -/
def cfgThree : Config := ⟨"topic", 3, 2, 5⟩

/-- The loop outcome of oBudget under cfgTwo: both budgeted rounds run. -/
def loBudget : LoopOut :=
  ⟨[], [Json.str "q1", Json.str "q1", Json.str "q1"], 2,
    [⟨0, [Json.str "q1"], [], []⟩, ⟨1, [Json.str "q1"], [], []⟩], ExitReason.budget⟩

/-- The session outcome of oBudget under cfgTwo. -/
def roBudget : RunOut := ⟨some "No report generated.", some loBudget⟩

/-- The loop outcome of oEmptyStr under cfgThree: one round, ended by the
"Research complete" break. -/
def loEmptyStr : LoopOut :=
  ⟨[], [Json.str "q1"], 1, [⟨0, [Json.str "q1"], [], []⟩], ExitReason.llmComplete⟩

/-- The session outcome of oEmptyStr under cfgThree. -/
def roEmptyStr : RunOut := ⟨some "No report generated.", some loEmptyStr⟩

/-! Helper lemmas about the dedup map construction. -/

theorem keyMem_eq_isSome (m : List (String × Json)) (k : String) :
    keyMem m k = (alistFind m k).isSome := by
  induction m with
  | nil => rfl
  | cons p ps ih =>
    unfold keyMem alistFind at *
    cases hpk : (p.1 == k) <;>
      simp [List.any_cons, List.find?_cons, hpk, ih]

theorem alistFind_append_single (m : List (String × Json)) (l : String) (q : Json)
    (k : String) :
    alistFind (m ++ [(l, q)]) k =
      match alistFind m k with
      | some v => some v
      | none => if k == l then some q else none := by
  unfold alistFind
  rw [List.find?_append]
  cases h : m.find? (fun p => p.1 == k) with
  | some v => simp
  | none =>
    by_cases hlk : l = k
    · subst hlk
      simp [List.find?_cons]
    · simp [List.find?_cons, beq_eq_false_iff_ne, hlk, Ne.symm hlk]

theorem addLinks_find (links : List String) :
    ∀ (m : List (String × Json)) (q : Json) (k : String),
      alistFind (addLinks m links q) k =
        match alistFind m k with
        | some v => some v
        | none => if links.contains k then some q else none := by
  induction links with
  | nil =>
    intro m q k
    cases h : alistFind m k <;> simp [addLinks, h]
  | cons l ls ih =>
    intro m q k
    have step : addLinks m (l :: ls) q =
        addLinks (if keyMem m l then m else m ++ [(l, q)]) ls q := rfl
    rw [step]
    by_cases hmem : keyMem m l = true
    · rw [if_pos hmem, ih]
      cases h : alistFind m k with
      | some v => simp
      | none =>
        have hne : ¬ k = l := by
          intro hkl
          subst hkl
          rw [keyMem_eq_isSome, h] at hmem
          simp at hmem
        simp [List.contains_cons, hne]
    · rw [if_neg hmem, ih, alistFind_append_single]
      cases h : alistFind m k with
      | some v => simp
      | none =>
        by_cases hkl : k = l
        · subst hkl
          simp [List.contains_cons]
        · simp [List.contains_cons, beq_eq_false_iff_ne, hkl]

theorem buildAux_find (pairs : List (Json × List String)) :
    ∀ (m : List (String × Json)) (k : String),
      alistFind (pairs.foldl (fun m p => addLinks m p.2 p.1) m) k =
        match alistFind m k with
        | some v => some v
        | none => firstOriginFor pairs k := by
  induction pairs with
  | nil =>
    intro m k
    cases h : alistFind m k <;> simp [firstOriginFor, h]
  | cons p ps ih =>
    intro m k
    rw [List.foldl_cons, ih, addLinks_find]
    cases h : alistFind m k with
    | some v => simp
    | none =>
      by_cases hc : k ∈ p.2
      · have hc' : p.2.contains k = true := by simpa using hc
        simp [firstOriginFor, List.find?_cons, hc', hc]
      · have hc' : p.2.contains k = false := by simpa using hc
        simp [firstOriginFor, List.find?_cons, hc', hc]

theorem keyMem_false_not_mem (m : List (String × Json)) (k : String)
    (h : keyMem m k = false) : k ∉ m.map Prod.fst := by
  intro hmem
  rcases List.mem_map.mp hmem with ⟨p, hp, hk⟩
  have : m.any (fun p => p.1 == k) = true :=
    List.any_eq_true.mpr ⟨p, hp, by simp [hk]⟩
  rw [keyMem] at h
  rw [h] at this
  exact Bool.false_ne_true this

theorem addLinks_nodup (links : List String) :
    ∀ (m : List (String × Json)) (q : Json),
      (m.map Prod.fst).Nodup → ((addLinks m links q).map Prod.fst).Nodup := by
  induction links with
  | nil => intro m q h; exact h
  | cons l ls ih =>
    intro m q h
    have step : addLinks m (l :: ls) q =
        addLinks (if keyMem m l then m else m ++ [(l, q)]) ls q := rfl
    rw [step]
    by_cases hmem : keyMem m l = true
    · rw [if_pos hmem]; exact ih m q h
    · rw [if_neg hmem]
      apply ih
      rw [List.map_append]
      rw [List.nodup_append]
      refine ⟨h, by simp, ?_⟩
      intro x hx hx'
      simp at hx'
      rw [hx'] at hx
      exact keyMem_false_not_mem m l (by simpa using hmem) hx

theorem buildAux_nodup (pairs : List (Json × List String)) :
    ∀ (m : List (String × Json)),
      (m.map Prod.fst).Nodup →
      ((pairs.foldl (fun m p => addLinks m p.2 p.1) m).map Prod.fst).Nodup := by
  induction pairs with
  | nil => intro m h; exact h
  | cons p ps ih =>
    intro m h
    rw [List.foldl_cons]
    exact ih _ (addLinks_nodup p.2 m p.1 h)

/-! Helper lemmas about the research loop. -/

theorem researchLoop_rounds_le (o : Oracle) (cfg : Config) :
    ∀ (fuel it : Nat) (agg allQ : List Json) (nsq : Json) (lo : LoopOut),
      researchLoop o cfg fuel it agg allQ nsq = Except.ok lo → lo.rounds ≤ fuel := by
  intro fuel
  induction fuel with
  | zero =>
    intro it agg allQ nsq lo h
    simp only [researchLoop] at h
    cases h
    exact Nat.le_refl 0
  | succ fuel ih =>
    intro it agg allQ nsq lo h
    simp only [researchLoop] at h
    split at h
    · exact absurd h (by simp)
    · split at h
      · exact absurd h (by simp)
      · split at h
        · exact absurd h (by simp)
        · split at h
          · cases h
            exact Nat.succ_le_succ (Nat.zero_le fuel)
          · split at h
            · split at h
              · exact absurd h (by simp)
              · split at h
                · exact absurd h (by simp)
                · split at h
                  · exact absurd h (by simp)
                  · rename_i out hrec
                    cases h
                    exact Nat.succ_le_succ (ih _ _ _ _ _ hrec)
            · cases h
              exact Nat.succ_le_succ (Nat.zero_le fuel)

theorem researchLoop_trace (o : Oracle) (cfg : Config) :
    ∀ (fuel it : Nat) (agg allQ : List Json) (nsq : Json) (lo : LoopOut),
      researchLoop o cfg fuel it agg allQ nsq = Except.ok lo →
      lo.aggregated = agg ++ (lo.trace.map RoundLog.contexts).flatten ∧
      ∀ rl ∈ lo.trace, rl.contexts = roundContexts o cfg rl.it rl.links := by
  intro fuel
  induction fuel with
  | zero =>
    intro it agg allQ nsq lo h
    simp only [researchLoop] at h
    cases h
    exact ⟨by simp, by simp⟩
  | succ fuel ih =>
    intro it agg allQ nsq lo h
    simp only [researchLoop] at h
    split at h
    · exact absurd h (by simp)
    · split at h
      · exact absurd h (by simp)
      · split at h
        · exact absurd h (by simp)
        · split at h
          · cases h
            refine ⟨by simp, ?_⟩
            intro rl hrl
            simp at hrl
            rw [hrl]
          · split at h
            · split at h
              · exact absurd h (by simp)
              · split at h
                · exact absurd h (by simp)
                · split at h
                  · exact absurd h (by simp)
                  · rename_i out hrec
                    cases h
                    rcases ih _ _ _ _ _ hrec with ⟨hagg, htr⟩
                    constructor
                    · simp only [List.map_cons, List.flatten_cons]
                      rw [hagg]
                      simp [List.append_assoc]
                    · intro rl hrl
                      rcases List.mem_cons.mp hrl with hhd | htl
                      · rw [hhd]
                      · exact htr rl htl
            · cases h
              refine ⟨by simp, ?_⟩
              intro rl hrl
              simp at hrl
              rw [hrl]

/-! Helper lemmas about the greedy brace scan. -/

theorem dropWhile_append_of_all (p : Char → Bool) (A R : List Char)
    (h : ∀ a ∈ A, p a = true) :
    (A ++ R).dropWhile p = R.dropWhile p := by
  induction A with
  | nil => rfl
  | cons a as ih =>
    rw [List.cons_append, List.dropWhile_cons, if_pos (h a (List.mem_cons_self a as))]
    exact ih (fun x hx => h x (List.mem_cons_of_mem a hx))

theorem braceSpanL_sandwich (A M B : List Char)
    (hA : ∀ c ∈ A, notOpen c = true) (hB : ∀ c ∈ B, notClose c = true) :
    braceSpanL (A ++ '{' :: (M ++ '}' :: B)) = some ('{' :: (M ++ ['}'])) := by
  unfold braceSpanL
  have ht : (A ++ '{' :: (M ++ '}' :: B)).dropWhile notOpen = '{' :: (M ++ '}' :: B) := by
    rw [dropWhile_append_of_all notOpen A _ hA, List.dropWhile_cons]
    simp [notOpen]
  have hrev : ('{' :: (M ++ '}' :: B)).reverse = B.reverse ++ '}' :: (M.reverse ++ ['{']) := by
    simp
  have hu : (B.reverse ++ '}' :: (M.reverse ++ ['{'])).dropWhile notClose =
      '}' :: (M.reverse ++ ['{']) := by
    rw [dropWhile_append_of_all notClose B.reverse _ (fun c hc => hB c (List.mem_reverse.mp hc)),
      List.dropWhile_cons]
    simp [notClose]
  simp only [ht, hrev, hu]
  simp

/-! Claim theorems. -/

set_option maxRecDepth 8192 in
/-- Claim C1 (code bug evaluation): in the extraction call only the first
string literal of the user message carries the f prefix, so the message sent
to the gateway contains the literal placeholder text for search_query,
page_text (and even the task prompt) rather than their values.  Evaluated at
user_query "Q", search_query "SRCH", page_text "PAGE": the content carries
the placeholders and does not mention either value. -/
theorem extraction_prompt_placeholder_bug :
    extract_relevant_user_content "Q" "SRCH" "PAGE" =
      "User Query: Q\nSearch Query: \x7bsearch_query\x7d\n\nWebpage Content:\n\x7bpage_text\x7d\n\n\x7bprompt\x7d"
    ∧ strContains (extract_relevant_user_content "Q" "SRCH" "PAGE") "SRCH" = false
    ∧ strContains (extract_relevant_user_content "Q" "SRCH" "PAGE") "PAGE" = false
    ∧ strContains (extract_relevant_user_content "Q" "SRCH" "PAGE") "\x7bsearch_query\x7d" = true
    ∧ strContains (extract_relevant_user_content "Q" "SRCH" "PAGE") "\x7bpage_text\x7d" = true :=
  ⟨rfl, rfl, rfl, rfl, rfl⟩

set_option maxRecDepth 8192 in
/-- Claim C2 (code bug evaluation): in the replanning call only the first and
last string literals of the user message carry the f prefix, so the message
contains literal placeholder text for previous_search_queries and
context_combined rather than their values (the fixed JSON-format instruction
is interpolated correctly).  The reply is indeed parsed as a JSON list under
the fixed key "queries". -/
theorem replanning_prompt_placeholder_bug :
    get_new_search_queries_user_content "Q" "PREVQ" "CTX" =
      "User Query: Q\nPrevious Search Queries: \x7bprevious_search_queries\x7d\n\nExtracted Relevant Contexts:\n\x7bcontext_combined\x7d\n\n\x7bprompt\x7d\nReturn a JSON object that contains a list of queries precisely in the following format: \x7b\"queries\" : [\"query1\", \"query2\", \"query3\"]\x7d"
    ∧ strContains (get_new_search_queries_user_content "Q" "PREVQ" "CTX") "PREVQ" = false
    ∧ strContains (get_new_search_queries_user_content "Q" "PREVQ" "CTX") "CTX" = false
    ∧ strContains (get_new_search_queries_user_content "Q" "PREVQ" "CTX")
        "\x7bprevious_search_queries\x7d" = true
    ∧ strContains (get_new_search_queries_user_content "Q" "PREVQ" "CTX")
        "\x7bcontext_combined\x7d" = true
    ∧ parse_query_list parseCX (some sQ1) = Json.arr [Json.str "q1"] :=
  ⟨rfl, rfl, rfl, rfl, rfl, rfl⟩

/-- Claim C3: for any round input (query values paired with their result
lists, in iteration order), the dedup map has no duplicate URL keys, and
looking up any URL yields exactly the query whose result list contained it
first in iteration order. -/
theorem unique_links_dedup_first_seen (pairs : List (Json × List String)) (link : String) :
    ((buildUniqueLinks pairs).map Prod.fst).Nodup ∧
    alistFind (buildUniqueLinks pairs) link = firstOriginFor pairs link := by
  constructor
  · exact buildAux_nodup pairs [] (by simp)
  · exact buildAux_find pairs [] link

/-- Claim C5: if the initial query generation yields the empty list, the
session returns normally with no report, no loop round, and hence no search,
link evaluation or report synthesis — for every behaviour of the remaining
oracle components. -/
theorem empty_initial_queries_early_exit (o : Oracle) (cfg : Config)
    (h : generate_search_queries_async o.parse o.genReply = Json.arr []) :
    async_main o cfg = Except.ok ⟨none, none⟩ := by
  simp [async_main, h, Json.truthy]

/-- Claim C5 witness: a concrete failing-gateway oracle yields the early
exit. -/
theorem empty_initial_queries_early_exit_witness :
    generate_search_queries_async oFail.parse oFail.genReply = Json.arr []
    ∧ async_main oFail cfgTwo = Except.ok ⟨none, none⟩ :=
  ⟨rfl, empty_initial_queries_early_exit oFail cfgTwo rfl⟩

/-- Claim C8: extract_json fails exactly when the greedy brace scan finds no
match or the matched text does not parse as JSON; when the scan matches and
the match parses, the parsed payload is returned; and the scan tolerates
surrounding prose: for any text of the shape A ++ "\x7b" ++ M ++ "\x7d" ++ B
with no opening brace in A and no closing brace in B, the scan returns
exactly the embedded "\x7b" ++ M ++ "\x7d" segment. -/
theorem extract_json_spec (parse : String → Option Json) (s : String) :
    ((∃ e, extract_json parse s = Except.error e) ↔
        braceSpan s = none ∨ ∃ sub, braceSpan s = some sub ∧ parse sub = none)
    ∧ (∀ sub j, braceSpan s = some sub → parse sub = some j →
        extract_json parse s = Except.ok j)
    ∧ (∀ A M B : List Char, (∀ c ∈ A, notOpen c = true) → (∀ c ∈ B, notClose c = true) →
        braceSpanL (A ++ '{' :: (M ++ '}' :: B)) = some ('{' :: (M ++ ['}']))) := by
  refine ⟨⟨?_, ?_⟩, ?_, braceSpanL_sandwich⟩
  · rintro ⟨e, he⟩
    cases hb : braceSpan s with
    | none => exact Or.inl rfl
    | some sub =>
      cases hp : parse sub with
      | none => exact Or.inr ⟨sub, rfl, hp⟩
      | some j =>
        simp only [extract_json, hb, hp] at he
        exact absurd he (by simp)
  · rintro (hb | ⟨sub, hb, hp⟩)
    · exact ⟨"No JSON object was found in " ++ s, by simp only [extract_json, hb]⟩
    · exact ⟨"json.loads raised JSONDecodeError", by simp only [extract_json, hb, hp]⟩
  · intro sub j hb hp
    simp only [extract_json, hb, hp]

/-- Claim C8 witness: on a reply embedding one JSON object in prose, the scan
returns exactly the object and extract_json returns the parsed payload. -/
theorem extract_json_spec_witness :
    extract_json parseCX sProse = Except.ok (Json.obj [("a", Json.num 1)])
    ∧ braceSpanL (['n', 'o'] ++ '{' :: (['m'] ++ '}' :: ['t'])) =
        some ('{' :: (['m'] ++ ['}'])) :=
  ⟨(extract_json_spec parseCX sProse).2.1 "\x7b\"a\": 1\x7d" (Json.obj [("a", Json.num 1)])
      rfl rfl,
    (extract_json_spec parseCX "").2.2 ['n', 'o'] ['m'] ['t'] (by decide) (by decide)⟩

/-- Claim C4: for every configuration with a positive iteration budget and
every oracle, a completed session executes at most n_iterations rounds (even
when every replanning reply proposes new queries), and exhausted fuel makes
the loop return immediately, forcing the transition to report synthesis. -/
theorem iteration_budget_bound (o : Oracle) (cfg : Config)
    (hpos : 0 < cfg.n_iterations) :
    (∀ ro lo, async_main o cfg = Except.ok ro → ro.loopOut = some lo →
       lo.rounds ≤ cfg.n_iterations ∧ ro.report.isSome = true)
    ∧ (∀ it agg allQ nsq, researchLoop o cfg 0 it agg allQ nsq =
       Except.ok ⟨agg, allQ, 0, [], ExitReason.budget⟩) := by
  constructor
  · intro ro lo h hlo
    simp only [async_main] at h
    split at h
    · cases h
      simp at hlo
    · split at h
      · exact absurd h (by simp)
      · split at h
        · exact absurd h (by simp)
        · rename_i lo' hloop
          split at h
          · exact absurd h (by simp)
          · cases h
            simp only [Option.some.injEq] at hlo
            subst hlo
            exact ⟨researchLoop_rounds_le o cfg _ _ _ _ _ _ hloop, rfl⟩
  · intro it agg allQ nsq
    simp only [researchLoop]

/-- Claim C4 witness: with a replanner that always proposes ["q1"] and a
two-round budget, the session stops after exactly two rounds and reports. -/
theorem iteration_budget_bound_witness :
    0 < cfgTwo.n_iterations
    ∧ (loBudget.rounds ≤ cfgTwo.n_iterations ∧ roBudget.report.isSome = true) :=
  ⟨by decide, (iteration_budget_bound oBudget cfgTwo (by decide)).1 roBudget loBudget rfl rfl⟩

/-- Claim C6: a completed loop's aggregated context equals the initial
aggregate followed by the concatenation, in round order, of each round's
contexts, and each round's contexts are exactly the truthy extraction results
of its dedup map in discovery order; in particular a completed session's
aggregate is the round-ordered concatenation of its trace — fragments are
appended, never reordered, dropped or deduplicated across rounds. -/
theorem aggregated_contexts_concatenation (o : Oracle) (cfg : Config) :
    (∀ fuel it agg allQ nsq lo,
        researchLoop o cfg fuel it agg allQ nsq = Except.ok lo →
        lo.aggregated = agg ++ (lo.trace.map RoundLog.contexts).flatten ∧
        ∀ rl ∈ lo.trace, rl.contexts = roundContexts o cfg rl.it rl.links)
    ∧ (∀ ro lo, async_main o cfg = Except.ok ro → ro.loopOut = some lo →
        lo.aggregated = (lo.trace.map RoundLog.contexts).flatten) := by
  constructor
  · exact researchLoop_trace o cfg
  · intro ro lo h hlo
    simp only [async_main] at h
    split at h
    · cases h
      simp at hlo
    · split at h
      · exact absurd h (by simp)
      · split at h
        · exact absurd h (by simp)
        · rename_i lo' hloop
          split at h
          · exact absurd h (by simp)
          · cases h
            simp only [Option.some.injEq] at hlo
            subst hlo
            simpa using (researchLoop_trace o cfg _ _ _ _ _ _ hloop).1

/-- Claim C6 witness: the concrete two-round session satisfies the
concatenation equation. -/
theorem aggregated_contexts_concatenation_witness :
    loBudget.aggregated = (loBudget.trace.map RoundLog.contexts).flatten :=
  (aggregated_contexts_concatenation oBudget cfgTwo).2 roBudget loBudget rfl rfl

/-- Claim C7: the usefulness check always returns exactly "Yes" or "No" and
never raises; an absent reply and a parse failure both yield "No" (fail
closed); and on a string verdict that is neither exactly "Yes" nor "No",
substring matching on "Yes" then "No" is applied, falling back to "No" when
neither matches. -/
theorem usefulness_verdict_spec (parse : String → Option Json) (response : Option String) :
    (is_page_useful_async parse response = "Yes" ∨ is_page_useful_async parse response = "No")
    ∧ (response = none → is_page_useful_async parse response = "No")
    ∧ (∀ r e, response = some r → extract_json parse r = Except.error e →
        is_page_useful_async parse response = "No")
    ∧ (∀ r j u, response = some r → r ≠ "" → extract_json parse r = Except.ok j →
        pyDictGet j "useful" Json.null = Except.ok (Json.str u) →
        u ≠ "" → u ≠ "Yes" → u ≠ "No" →
        is_page_useful_async parse response =
          (if strContains u "Yes" then "Yes"
           else if strContains u "No" then "No" else "No")) := by
  refine ⟨?_, ?_, ?_, ?_⟩
  · cases response with
    | none => exact Or.inr rfl
    | some r =>
      simp only [is_page_useful_async]
      repeat' split
      all_goals simp
  · intro h
    rw [h]
    rfl
  · intro r e hresp hext
    subst hresp
    simp [is_page_useful_async, hext]
  · intro r j u hresp hr hext hget hu0 huY huN
    subst hresp
    have hrb : (r == "") = false := by
      simpa using hr
    have hub : (u != "") = true := by
      simpa using hu0
    have huYb : (u == "Yes") = false := by
      simpa using huY
    have huNb : (u == "No") = false := by
      simpa using huN
    simp only [is_page_useful_async, hrb, hext, hget, Json.truthy, Json.isStr, pyInStr,
      hub, huYb, huNb, Bool.not_true, if_false]
    cases hYes : strContains u "Yes" with
    | true => simp
    | false =>
      cases hNo : strContains u "No" with
      | true => simp
      | false => simp

/-- Claim C7 witness: an ambiguous string verdict "Yes, definitely" is
recovered to "Yes" by the substring heuristic. -/
theorem usefulness_verdict_spec_witness :
    is_page_useful_async parseCX (some sUseYes) = "Yes" := by
  have h := (usefulness_verdict_spec parseCX (some sUseYes)).2.2.2 sUseYes
    (Json.obj [("useful", Json.str "Yes, definitely")]) "Yes, definitely"
    rfl (by decide) rfl rfl (by decide) (by decide) (by decide)
  rw [h]
  rfl

/-- Claim C9: the session is deterministic in its upstream responses — two
oracles that agree pointwise on every response produce identical session
outcomes (hence identical final report text and aggregated context). -/
theorem session_deterministic (cfg : Config) (o₁ o₂ : Oracle)
    (hg : o₁.genReply = o₂.genReply)
    (hs : ∀ it q, o₁.search it q = o₂.search it q)
    (hf : ∀ it u, o₁.fetch it u = o₂.fetch it u)
    (hh : ∀ p, o₁.html2text p = o₂.html2text p)
    (hu : ∀ it u, o₁.usefulReply it u = o₂.usefulReply it u)
    (he : ∀ it u, o₁.extractReply it u = o₂.extractReply it u)
    (hr : ∀ it, o₁.replanReply it = o₂.replanReply it)
    (hrep : o₁.reportReply = o₂.reportReply)
    (hp : ∀ s, o₁.parse s = o₂.parse s) :
    async_main o₁ cfg = async_main o₂ cfg := by
  have hO : o₁ = o₂ := by
    cases o₁ with
    | mk g1 s1 f1 h1 u1 e1 r1 rep1 p1 =>
      cases o₂ with
      | mk g2 s2 f2 h2 u2 e2 r2 rep2 p2 =>
        simp only [Oracle.mk.injEq]
        refine ⟨hg, ?_, ?_, ?_, ?_, ?_, ?_, hrep, ?_⟩
        · funext it q; exact hs it q
        · funext it u; exact hf it u
        · funext p; exact hh p
        · funext it u; exact hu it u
        · funext it u; exact he it u
        · funext it; exact hr it
        · funext s; exact hp s
  rw [hO]

/-- Claim C9 witness: replaying the concrete budget oracle reproduces the
same outcome. -/
theorem session_deterministic_witness :
    async_main oBudget cfgTwo = async_main oBudget cfgTwo :=
  session_deterministic cfgTwo oBudget oBudget rfl (fun _ _ => rfl) (fun _ _ => rfl)
    (fun _ => rfl) (fun _ _ => rfl) (fun _ _ => rfl) (fun _ => rfl) rfl (fun _ => rfl)

/-- Claim C10 counterexample: a replanning reply whose "queries" value is the
empty string makes get_new_search_queries_async return the empty string (not
a list), and a session receiving that reply takes the
"Research complete according to LLM assessment" break — the branch the claim
calls unreachable. -/
theorem replanning_empty_string_reachable :
    get_new_search_queries_async parseCX [] (some sQE) = Except.ok (Json.str "")
    ∧ async_main oEmptyStr cfgThree = Except.ok roEmptyStr
    ∧ roEmptyStr.loopOut = some loEmptyStr
    ∧ loEmptyStr.exitReason = ExitReason.llmComplete :=
  ⟨rfl, rfl, rfl, rfl⟩

/-- Claim C10 (amended): the replanning step returns the list [] in every
failure case (absent reply, empty reply, no JSON object, invalid JSON,
non-dict payload, missing key), and otherwise returns the parsed "queries"
payload unchecked — the isinstance guard raises only after the assignment —
so a non-list payload (e.g. the empty string, which makes the loop's
"Research complete" branch reachable) is returned as-is. -/
theorem replanning_result_shape (parse : String → Option Json)
    (all_contexts : List Json) (response : Option String) (v : Json)
    (h : get_new_search_queries_async parse all_contexts response = Except.ok v) :
    v = Json.arr [] ∨
    ∃ r j, response = some r ∧ extract_json parse r = Except.ok j ∧
      pyDictGet j "queries" (Json.arr []) = Except.ok v := by
  unfold get_new_search_queries_async at h
  split at h
  · exact absurd h (by simp)
  · simp only [Except.ok.injEq] at h
    subst h
    cases response with
    | none => exact Or.inl rfl
    | some r =>
      by_cases hr : (r == "") = true
      · exact Or.inl (by simp [parse_query_list, hr])
      · cases hext : extract_json parse r with
        | error e => exact Or.inl (by simp [parse_query_list, hr, hext])
        | ok j =>
          cases hget : pyDictGet j "queries" (Json.arr []) with
          | error e => exact Or.inl (by simp [parse_query_list, hr, hext, hget])
          | ok w =>
            have hv : parse_query_list parse (some r) = w := by
              simp [parse_query_list, hr, hext, hget]
            rw [hv]
            exact Or.inr ⟨r, j, rfl, hext, hget⟩

/-- Claim C10 amended-claim witness: the empty-string payload is returned
exactly as the parsed "queries" value. -/
theorem replanning_result_shape_witness :
    Json.str "" = Json.arr [] ∨
    ∃ r j, (some sQE : Option String) = some r ∧ extract_json parseCX r = Except.ok j ∧
      pyDictGet j "queries" (Json.arr []) = Except.ok (Json.str "") :=
  replanning_result_shape parseCX [] (some sQE) (Json.str "") rfl

end DeepSearch
